import Mathlib

/-!
Verification of the receipt-OCR application (`streamlit_app.py`).

The file shallowly embeds the pure logic of the application:

* `parse_receipt` — the colon-splitting record extractor (source lines 68–84),
  modelled over `List Char` so that Python string primitives (`str.split`,
  `str.strip`, `in`) become explicit list functions;
* `ocr_core` — the image-normalisation pipeline (source lines 47–62):
  `cv2.cvtColor(·, COLOR_BGR2GRAY)`, Otsu thresholding
  (`cv2.threshold(·, 0, 255, THRESH_BINARY | THRESH_OTSU)`), and the external
  recogniser as an oracle parameter;
* the MongoDB display path (`collection.find()` followed by
  `record.pop('_id', None)`, source lines 153–158) over association-list
  documents;
* the orchestration in `main`: the sidebar message at store-connection
  time (lines 35–41) and the warning branch for an empty extraction
  (lines 147–148).
-/

namespace ReceiptApp

/-! ## Python string primitives over `List Char` -/

/-- Whitespace characters removed by Python `str.strip()` (ASCII part). -/
def isPySpace (c : Char) : Bool :=
  c = ' ' || c = '\t' || c = '\n' || c = '\r' || c = '\x0b' || c = '\x0c'

/-- Python `str.strip()`: drop leading and trailing whitespace. -/
def pyStrip (s : List Char) : List Char :=
  ((s.dropWhile isPySpace).reverse.dropWhile isPySpace).reverse

/-- Python `text.split('\n')`: split into lines at every newline; the result
always has one more element than the number of newlines, and `""` splits to
`[""]`. -/
def splitLines : List Char → List (List Char)
  | [] => [[]]
  | c :: cs =>
    if c = '\n' then [] :: splitLines cs
    else
      match splitLines cs with
      | [] => [[c]]
      | l :: ls => (c :: l) :: ls

/-- Python `line.split(d, 1)` when `d` occurs: `some (before, after)` for the
first occurrence of `d`, `none` when `d` does not occur. -/
def splitFirst (d : Char) : List Char → Option (List Char × List Char)
  | [] => none
  | c :: cs =>
    if c = d then some ([], cs)
    else (splitFirst d cs).map (fun p => (c :: p.1, p.2))

/-! ## Record extraction (`parse_receipt`, source lines 68–84) -/

/-- One extracted key-value row: `{"Field": key.strip(), "Value": value.strip()}`. -/
structure Record where
  field : List Char
  value : List Char
deriving DecidableEq

/-- The body of the loop in `parse_receipt`: `if ':' in line:` split at the
first colon, strip both parts, emit a record; otherwise emit nothing. -/
def parseLine (line : List Char) : Option Record :=
  if ':' ∈ line then
    match splitFirst ':' line with
    | some kv => some { field := pyStrip kv.1, value := pyStrip kv.2 }
    | none => none
  else none

/-- The `data` list built by `parse_receipt` before the DataFrame conversion. -/
def extractRecords (text : List Char) : List Record :=
  (splitLines text).filterMap parseLine

/-- A pandas DataFrame as used here: a column list plus the record rows. -/
structure DataFrame where
  columns : List String
  rows : List Record
deriving DecidableEq

/-- `pd.DataFrame(data)` for a list of `{"Field": _, "Value": _}` dicts: an
empty list yields a frame with no columns, a non-empty list yields the two
columns in dict order. -/
def mkDF (data : List Record) : DataFrame :=
  { columns := if data.isEmpty then [] else ["Field", "Value"], rows := data }

/-- `parse_receipt` (source lines 68–84): build the record list, convert to a
DataFrame, and replace an empty frame by one with explicit `Field`/`Value`
columns. -/
def parse_receipt (text : List Char) : DataFrame :=
  let data := extractRecords text
  let df := mkDF data
  if df.rows.isEmpty then { columns := ["Field", "Value"], rows := [] } else df

/-! ## Basic lemmas about the splitting primitives -/

lemma splitLines_ne_nil (s : List Char) : splitLines s ≠ [] := by
  cases s with
  | nil => simp [splitLines]
  | cons c cs =>
    simp only [splitLines]
    by_cases h : c = '\n'
    · simp [h]
    · simp only [h, if_false]
      cases splitLines cs with
      | nil => simp
      | cons l ls => simp

lemma splitFirst_eq (d : Char) (l : List Char) :
    splitFirst d l =
      if d ∈ l then
        some (l.takeWhile (fun c => ¬ c = d), (l.dropWhile (fun c => ¬ c = d)).tail)
      else none := by
  induction l with
  | nil => simp [splitFirst]
  | cons c cs ih =>
    by_cases hc : c = d
    · subst hc
      simp [splitFirst, List.takeWhile_cons, List.dropWhile_cons]
    · have hd : (d ∈ c :: cs) ↔ d ∈ cs := by
        constructor
        · intro h
          rcases List.mem_cons.mp h with h | h
          · exact absurd h.symm hc
          · exact h
        · intro h; exact List.mem_cons_of_mem _ h
      by_cases hm : d ∈ cs
      · simp only [splitFirst, hc, if_false, ih, hm, if_true, hd, Option.map_some,
          List.takeWhile_cons, List.dropWhile_cons]
        have hcd : (¬ c = d) = True := by simp [hc]
        simp [hc]
      · simp [splitFirst, hc, ih, hm, hd]

lemma parseLine_of_mem {l : List Char} (h : ':' ∈ l) :
    parseLine l =
      some { field := pyStrip (l.takeWhile (fun c => ¬ c = ':')),
             value := pyStrip ((l.dropWhile (fun c => ¬ c = ':')).tail) } := by
  simp [parseLine, h, splitFirst_eq]

lemma parseLine_of_not_mem {l : List Char} (h : ¬ ':' ∈ l) :
    parseLine l = none := by
  simp [parseLine, h]

/-- Record extraction over an explicit line list: it is the order-preserving
map of the line splitter over exactly the delimiter-bearing lines. -/
lemma filterMap_parseLine_eq (ls : List (List Char)) :
    ls.filterMap parseLine =
      (ls.filter (fun l => decide (':' ∈ l))).map
        (fun l => { field := pyStrip (l.takeWhile (fun c => ¬ c = ':')),
                    value := pyStrip ((l.dropWhile (fun c => ¬ c = ':')).tail) : Record }) := by
  induction ls with
  | nil => simp
  | cons l ls ih =>
    by_cases h : ':' ∈ l
    · rw [List.filterMap_cons, parseLine_of_mem h]
      rw [List.filter_cons_of_pos (by simpa using h), List.map_cons, ih]
    · rw [List.filterMap_cons, parseLine_of_not_mem h]
      rw [List.filter_cons_of_neg (by simpa using h), ih]

/-! ## Streamlit messages and the review branch of `main` (lines 117–148) -/

/-- A user-visible Streamlit message, tagged by the emitting call
(`st.success`, `st.error` / `st.sidebar.error`, `st.warning`, `st.info`). -/
inductive Msg where
  | success (s : String)
  | error (s : String)
  | warning (s : String)
  | info (s : String)
deriving DecidableEq

/-- Whether a message was emitted by a `st.warning` call. -/
def Msg.isWarning : Msg → Bool
  | .warning _ => true
  | _ => false

/-- What `main` shows for a parsed DataFrame: either the editable AgGrid table
or the no-key-value-pairs warning (source lines 117–148). -/
inductive ReviewOutcome where
  | editGrid (df : DataFrame)
  | notice (m : Msg)
deriving DecidableEq

/-- `pandas.DataFrame.empty`: true when either axis has length zero. -/
def DataFrame.isEmptyDF (df : DataFrame) : Bool :=
  df.rows.isEmpty || df.columns.isEmpty

/-- The `if not df.empty: ... else: st.warning(...)` branch of `main`
(source lines 117–148). -/
def reviewStep (df : DataFrame) : ReviewOutcome :=
  if df.isEmptyDF then
    ReviewOutcome.notice (Msg.warning
      "No key-value pairs found in the extracted text. Please check the receipt format or improve the parsing logic.")
  else ReviewOutcome.editGrid df

/-! ## Image normalisation (`ocr_core`, source lines 47–62)

Images are pixel grids: `Img` has a channel count and rows of pixels, each
pixel a list of 8-bit channel values; `GrayImg` is the single-channel form
produced by `cv2.cvtColor`. -/

structure Img where
  channels : Nat
  rows : List (List (List Nat))
deriving DecidableEq

abbrev GrayImg := List (List Nat)

/-- OpenCV fixed-point BGR luma: `(b*1868 + g*9617 + r*4899 + 2^13) >> 14`,
the 8-bit implementation of `Y = 0.114 B + 0.587 G + 0.299 R` on a pixel whose
channel order is taken to be B, G, R (alpha, if present, is ignored). -/
def bgr2grayPixel (p : List Nat) : Nat :=
  (p.headD 0 * 1868 + (p.drop 1).headD 0 * 9617 + (p.drop 2).headD 0 * 4899 + 8192) / 16384

/-- `cv2.cvtColor(image, cv2.COLOR_BGR2GRAY)`: defined only on 3- or 4-channel
input (OpenCV raises `Invalid number of channels in input image` otherwise). -/
def cvtColor_BGR2GRAY (img : Img) : Except String GrayImg :=
  if img.channels = 3 ∨ img.channels = 4 then
    Except.ok (img.rows.map (fun row => row.map bgr2grayPixel))
  else Except.error "cvtColor: invalid number of channels in input image"

/-- Pixel-intensity histogram of a grayscale image. -/
def histCount (g : GrayImg) (i : Nat) : Nat :=
  (g.map (fun row => (row.filter (fun v => v = i)).length)).sum

/-- Total pixel count of a grayscale image. -/
def pixelCount (g : GrayImg) : Nat :=
  (g.map List.length).sum

/-- Accumulator of OpenCV's Otsu scan (`getThreshVal_Otsu_8u`). -/
structure OtsuState where
  q1 : ℚ
  mu1 : ℚ
  maxSigma : ℚ
  maxVal : Nat
deriving DecidableEq

/-- `FLT_EPSILON`, exactly. -/
def fltEps : ℚ := 1 / 2 ^ 23

/-- One iteration of OpenCV's Otsu loop, in exact rational arithmetic. -/
def otsuStep (hist : Nat → Nat) (scale mu : ℚ) (st : OtsuState) (i : Nat) :
    OtsuState :=
  let p : ℚ := (hist i : ℚ) * scale
  let mu1s := st.mu1 * st.q1
  let q1 := st.q1 + p
  let q2 := 1 - q1
  if min q1 q2 < fltEps ∨ max q1 q2 > 1 - fltEps then
    { q1 := q1, mu1 := mu1s, maxSigma := st.maxSigma, maxVal := st.maxVal }
  else
    let mu1 := (mu1s + (i : ℚ) * p) / q1
    let mu2 := (mu - q1 * mu1) / q2
    let sigma := q1 * q2 * (mu1 - mu2) * (mu1 - mu2)
    if sigma > st.maxSigma then
      { q1 := q1, mu1 := mu1, maxSigma := sigma, maxVal := i }
    else
      { q1 := q1, mu1 := mu1, maxSigma := st.maxSigma, maxVal := st.maxVal }

/-- Otsu's global threshold as computed by OpenCV: the intensity maximising
the between-class variance over the 256-bin histogram. -/
def otsuThreshold (g : GrayImg) : Nat :=
  let n : ℚ := (pixelCount g : ℚ)
  let scale : ℚ := 1 / n
  let mu : ℚ := scale * ((List.range 256).map (fun (i : ℕ) => (i : ℚ) * (histCount g i : ℚ))).sum
  ((List.range 256).foldl (otsuStep (histCount g) scale mu)
    { q1 := 0, mu1 := 0, maxSigma := 0, maxVal := 0 }).maxVal

/-- `cv2.threshold(gray, 0, 255, THRESH_BINARY | THRESH_OTSU)[1]`: binarize at
the Otsu threshold, mapping pixels above it to 255 and the rest to 0. -/
def threshold_binary_otsu (g : GrayImg) : GrayImg :=
  let t := otsuThreshold g
  g.map (fun row => row.map (fun v => if v > t then 255 else 0))

/-- The preprocessing of `ocr_core` (source lines 52–57): grayscale conversion
followed by Otsu binarization. -/
def normalize (img : Img) : Except String GrayImg :=
  match cvtColor_BGR2GRAY img with
  | Except.error e => Except.error e
  | Except.ok gray => Except.ok (threshold_binary_otsu gray)

/-- `ocr_core` (source lines 47–62): normalize the image and hand the binary
result to the external recogniser (`pytesseract.image_to_string`), modelled as
an oracle parameter. -/
def ocr_core (recognize : GrayImg → String) (img : Img) : Except String String :=
  match normalize img with
  | Except.error e => Except.error e
  | Except.ok bin => Except.ok (recognize bin)

/-- A `GrayImg` viewed again as a pixel grid: one channel per pixel. -/
def grayToImg (g : GrayImg) : Img :=
  { channels := 1, rows := g.map (fun row => row.map (fun v => [v])) }

/-! ## MongoDB documents and the stored-data display path (lines 151–159) -/

/-- A stored document: the key-value items of a MongoDB document, in order,
keys unique. -/
abbrev Doc := List (String × String)

/-- `record.pop('_id', None)` (source line 157): remove the store-assigned
identifier from a document. -/
def popId (d : Doc) : Doc :=
  d.filter (fun kv => ¬ kv.1 = "_id")

/-- The display path for stored data (source lines 153–158): read every
document of the collection and strip `_id` from each. -/
def listStored (docs : List Doc) : List Doc :=
  docs.map popId

/-- Dictionary lookup on a document. -/
def lookupKey (k : String) : Doc → Option String
  | [] => none
  | kv :: rest => if kv.1 = k then some kv.2 else lookupKey k rest

/-! ## Store connection bootstrap and the app step (lines 35–41, 102–148) -/

/-- State of the MongoDB connection made at process start (lines 35–41). -/
inductive StoreConn where
  | connected (docs : List Doc)
  | failed (err : String)
deriving DecidableEq

/-- The sidebar message emitted by the connection bootstrap (lines 39 and 41). -/
def initStoreMsg : StoreConn → Msg
  | .connected _ => Msg.success "Connected to MongoDB successfully!"
  | .failed e => Msg.error ("Error connecting to MongoDB: " ++ e)

/-- What one upload interaction of `main` shows: the sidebar connection
message and the OCR-plus-extraction output. -/
structure AppView where
  sidebar : Msg
  pipeline : Except String (String × DataFrame)

/-- One upload interaction of `main` (source lines 102–148): the sidebar
reflects the connection bootstrap; the pipeline runs `ocr_core` and
`parse_receipt` on the uploaded image, never consulting the store. -/
def appStep (conn : StoreConn) (recognize : GrayImg → String) (img : Img) :
    AppView :=
  { sidebar := initStoreMsg conn,
    pipeline :=
      match ocr_core recognize img with
      | Except.error e => Except.error e
      | Except.ok text => Except.ok (text, parse_receipt text.toList) }

/-! ## Lemmas for the store display path -/

lemma popId_cons_drop {kv : String × String} (rest : Doc) (h : kv.1 = "_id") :
    popId (kv :: rest) = popId rest := by
  rw [popId, List.filter_cons_of_neg (by simpa using h)]
  rfl

lemma popId_cons_keep {kv : String × String} (rest : Doc) (h : ¬ kv.1 = "_id") :
    popId (kv :: rest) = kv :: popId rest := by
  rw [popId, List.filter_cons_of_pos (by simpa using h)]
  rfl

lemma lookup_popId_id (d : Doc) : lookupKey "_id" (popId d) = none := by
  induction d with
  | nil => rfl
  | cons kv rest ih =>
    by_cases h : kv.1 = "_id"
    · rw [popId_cons_drop rest h]
      exact ih
    · rw [popId_cons_keep rest h, lookupKey, if_neg h]
      exact ih

lemma lookup_popId_other (d : Doc) (k : String) (hk : ¬ k = "_id") :
    lookupKey k (popId d) = lookupKey k d := by
  induction d with
  | nil => rfl
  | cons kv rest ih =>
    by_cases h : kv.1 = "_id"
    · have hne : ¬ kv.1 = k := by
        rw [h]; intro hc; exact hk hc.symm
      rw [popId_cons_drop rest h, ih, lookupKey, if_neg hne]
    · rw [popId_cons_keep rest h]
      by_cases h2 : kv.1 = k
      · rw [lookupKey, if_pos h2, lookupKey, if_pos h2]
      · rw [lookupKey, if_neg h2, lookupKey, if_neg h2, ih]

/-! ## Claim theorems -/

/-- C1: for every input text, `parse_receipt` produces exactly one record per
line containing at least one `:` character; lines without a `:` produce no
record. -/
theorem extract_count_eq_delimiter_lines (t : List Char) :
    (extractRecords t).length =
      ((splitLines t).filter (fun l => decide (':' ∈ l))).length := by
  rw [extractRecords, filterMap_parseLine_eq, List.length_map]

/-- C2: every line with a `:` yields a record whose field is the part before
the first colon, trimmed, and whose value is the part after it, trimmed —
including lines where the trimmed field or value is empty, and lines whose
value contains further colons. -/
theorem extract_splits_at_first_colon (L : List Char) (h : ':' ∈ L) :
    parseLine L =
      some { field := pyStrip (L.takeWhile (fun c => ¬ c = ':')),
             value := pyStrip ((L.dropWhile (fun c => ¬ c = ':')).tail) } :=
  parseLine_of_mem h

/-- Witness for C2 on the edge cases `"Total:"` (empty value) and `":5.00"`
(empty field), plus a value with an inner colon. -/
theorem extract_splits_at_first_colon_witness :
    parseLine "Total:".toList = some { field := "Total".toList, value := [] } ∧
    parseLine ":5.00".toList = some { field := [], value := "5.00".toList } ∧
    parseLine "Time: 10:30".toList =
      some { field := "Time".toList, value := "10:30".toList } := by
  refine ⟨?_, ?_, ?_⟩
  · rw [extract_splits_at_first_colon _ (by decide)]; decide
  · rw [extract_splits_at_first_colon _ (by decide)]; decide
  · rw [extract_splits_at_first_colon _ (by decide)]; decide

/-- C3: the extracted records are exactly the order-preserving map of the
line splitter over the delimiter-bearing lines, so their relative order
mirrors the line order and no reordering, deduplication or merging occurs. -/
theorem extract_order_preserving (t : List Char) :
    extractRecords t =
      ((splitLines t).filter (fun l => decide (':' ∈ l))).map
        (fun l => { field := pyStrip (l.takeWhile (fun c => ¬ c = ':')),
                    value := pyStrip ((l.dropWhile (fun c => ¬ c = ':')).tail) : Record }) :=
  filterMap_parseLine_eq _

/-- C4: when no line of the input contains a `:`, extraction returns the
empty record set (no error), the resulting frame is the explicit empty
`Field`/`Value` frame, and `main` reports this as a `st.warning`, distinct
from any error message. -/
theorem extract_no_delimiter_warning (t : List Char)
    (h : ∀ l ∈ splitLines t, ¬ ':' ∈ l) :
    extractRecords t = [] ∧
      parse_receipt t = { columns := ["Field", "Value"], rows := [] } ∧
      reviewStep (parse_receipt t) =
        ReviewOutcome.notice (Msg.warning
          "No key-value pairs found in the extracted text. Please check the receipt format or improve the parsing logic.") ∧
      ∀ s, reviewStep (parse_receipt t) ≠ ReviewOutcome.notice (Msg.error s) := by
  have hnil : extractRecords t = [] := by
    rw [extractRecords, List.filterMap_eq_nil_iff]
    intro l hl
    exact parseLine_of_not_mem (h l hl)
  have hdf : parse_receipt t = { columns := ["Field", "Value"], rows := [] } := by
    simp [parse_receipt, hnil, mkDF]
  refine ⟨hnil, hdf, ?_, ?_⟩
  · rw [hdf]; rfl
  · intro s
    rw [hdf]
    simp [reviewStep, DataFrame.isEmptyDF]

/-- Witness for C4 on a delimiter-free text. -/
theorem extract_no_delimiter_warning_witness :
    extractRecords "Random text without colon".toList = [] ∧
      parse_receipt "Random text without colon".toList =
        { columns := ["Field", "Value"], rows := [] } ∧
      reviewStep (parse_receipt "Random text without colon".toList) =
        ReviewOutcome.notice (Msg.warning
          "No key-value pairs found in the extracted text. Please check the receipt format or improve the parsing logic.") ∧
      reviewStep (parse_receipt "Random text without colon".toList) ≠
        ReviewOutcome.notice (Msg.error "recognition failed") := by
  have h := extract_no_delimiter_warning "Random text without colon".toList (by decide)
  exact ⟨h.1, h.2.1, h.2.2.1, h.2.2.2 "recognition failed"⟩

/-- C9: the frame returned by `parse_receipt` always has exactly the columns
`Field` and `Value`, even when no record was extracted. -/
theorem parse_receipt_columns (t : List Char) :
    (parse_receipt t).columns = ["Field", "Value"] := by
  by_cases h : extractRecords t = []
  · simp [parse_receipt, mkDF, h]
  · simp [parse_receipt, mkDF, h]

/-- C10: appending a single trailing newline leaves both the extracted record
list and the resulting frame unchanged, because the new final line is empty
and contains no `:`. -/
theorem extract_trailing_newline_invariant (t : List Char) :
    extractRecords (t ++ ['\n']) = extractRecords t ∧
      parse_receipt (t ++ ['\n']) = parse_receipt t := by
  have hsplit : splitLines (t ++ ['\n']) = splitLines t ++ [[]] := by
    induction t with
    | nil => rfl
    | cons c cs ih =>
      have e1 : (c :: cs) ++ ['\n'] = c :: (cs ++ ['\n']) := rfl
      rw [e1]
      by_cases hc : c = '\n'
      · rw [show splitLines (c :: (cs ++ ['\n'])) = [] :: splitLines (cs ++ ['\n'])
            from by simp [splitLines, hc]]
        rw [ih]
        rw [show splitLines (c :: cs) = [] :: splitLines cs
            from by simp [splitLines, hc]]
        rfl
      · obtain ⟨l, ls, hsl⟩ : ∃ l ls, splitLines cs = l :: ls := by
          cases hx : splitLines cs with
          | nil => exact absurd hx (splitLines_ne_nil cs)
          | cons l ls => exact ⟨l, ls, rfl⟩
        have h2 : splitLines (cs ++ ['\n']) = l :: (ls ++ [[]]) := by
          rw [ih, hsl]; rfl
        rw [show splitLines (c :: (cs ++ ['\n'])) = (c :: l) :: (ls ++ [[]])
            from by simp [splitLines, hc, h2]]
        rw [show splitLines (c :: cs) = (c :: l) :: ls
            from by simp [splitLines, hc, hsl]]
        rfl
  have h1 : extractRecords (t ++ ['\n']) = extractRecords t := by
    rw [extractRecords, hsplit, List.filterMap_append, ← extractRecords]
    simp [parseLine]
  refine ⟨h1, ?_⟩
  rw [parse_receipt, parse_receipt, h1]

/-- C5 counterexample: a single-channel 1×1 pixel grid is decodable input,
yet the normalisation of `ocr_core` rejects it with a channel-count error
instead of accepting it. -/
theorem normalize_single_channel_cex :
    ReceiptApp.normalize { channels := 1, rows := [[[5]]] } =
      Except.error "cvtColor: invalid number of channels in input image" := rfl

/-- C5 amended: the normalisation accepts 3- and 4-channel input, converting
pixels by the fixed-point BGR luma formula and binarizing at the Otsu
threshold, but rejects any other channel count — in particular single-channel
grayscale input — with an invalid-channel error. -/
theorem ocr_core_channel_behavior (recognize : GrayImg → String) (img : Img) :
    (img.channels = 3 ∨ img.channels = 4 →
      ocr_core recognize img =
        Except.ok (recognize (threshold_binary_otsu
          (img.rows.map (fun row => row.map bgr2grayPixel))))) ∧
    (¬ (img.channels = 3 ∨ img.channels = 4) →
      ocr_core recognize img =
        Except.error "cvtColor: invalid number of channels in input image") := by
  constructor <;> intro h <;>
    simp [ocr_core, ReceiptApp.normalize, cvtColor_BGR2GRAY, h]

/-- Witness for C5 amended: a 3-channel pixel goes through, a single-channel
pixel is rejected. -/
theorem ocr_core_channel_behavior_witness :
    ocr_core (fun _ => "ok") { channels := 3, rows := [[[1, 2, 3]]] } =
      Except.ok "ok" ∧
    ocr_core (fun _ => "ok") { channels := 1, rows := [[[5]]] } =
      Except.error "cvtColor: invalid number of channels in input image" := by
  have h1 := (ocr_core_channel_behavior (fun _ => "ok")
    { channels := 3, rows := [[[1, 2, 3]]] }).1 (Or.inl rfl)
  have h2 := (ocr_core_channel_behavior (fun _ => "ok")
    { channels := 1, rows := [[[5]]] }).2 (by decide)
  exact ⟨h1, h2⟩

/-- C6 counterexample: re-normalizing the already-binary single-channel image
`[[0, 255]]` does not return it pixel-identically — it fails with the
channel-count error of the grayscale conversion. -/
theorem renormalize_binary_cex :
    ReceiptApp.normalize (grayToImg [[0, 255]]) =
      Except.error "cvtColor: invalid number of channels in input image" ∧
    ReceiptApp.normalize (grayToImg [[0, 255]]) ≠ Except.ok [[0, 255]] := by
  exact ⟨rfl, by intro hc; cases hc⟩

/-- C6 amended: re-normalizing a NormalizedImage (single-channel, pixels in
`{0, 255}`) never yields a pixel-identical result: the grayscale conversion
rejects its single channel, so normalisation fails with an invalid-channel
error. -/
theorem renormalize_normalized_errors (g : GrayImg)
    (_hbin : ∀ row ∈ g, ∀ v ∈ row, v = 0 ∨ v = 255) :
    ReceiptApp.normalize (grayToImg g) =
      Except.error "cvtColor: invalid number of channels in input image" := by
  simp [ReceiptApp.normalize, grayToImg, cvtColor_BGR2GRAY]

/-- Witness for C6 amended on the binary image `[[0, 255]]`. -/
theorem renormalize_normalized_errors_witness :
    ReceiptApp.normalize (grayToImg [[0, 255]]) =
      Except.error "cvtColor: invalid number of channels in input image" :=
  renormalize_normalized_errors [[0, 255]] (by decide)

/-- C7: the stored-data display path returns every stored document with the
store-assigned `_id` field removed and every other field unchanged. -/
theorem listStored_strips_id (docs : List Doc) :
    listStored docs = docs.map popId ∧
    ∀ d : Doc, lookupKey "_id" (popId d) = none ∧
      ∀ k : String, ¬ k = "_id" → lookupKey k (popId d) = lookupKey k d := by
  refine ⟨rfl, fun d => ⟨lookup_popId_id d, fun k hk => lookup_popId_other d k hk⟩⟩

/-- Witness for C7 on a concrete stored document. -/
theorem listStored_strips_id_witness :
    lookupKey "_id" (popId [("_id", "x"), ("Field", "Total")]) = none ∧
    lookupKey "Field" (popId [("_id", "x"), ("Field", "Total")]) =
      lookupKey "Field" [("_id", "x"), ("Field", "Total")] := by
  have h := listStored_strips_id [[("_id", "x"), ("Field", "Total")]]
  exact ⟨(h.2 _).1, (h.2 _).2 "Field" (by decide)⟩

/-- C8 counterexample: the message surfaced on a store-connection failure is
an `st.sidebar.error` message, not a warning. -/
theorem store_failure_not_warning_cex :
    initStoreMsg (StoreConn.failed "boom") =
      Msg.error "Error connecting to MongoDB: boom" ∧
    (initStoreMsg (StoreConn.failed "boom")).isWarning = false :=
  ⟨rfl, rfl⟩

/-- C8 amended: the OCR and extraction outputs of one interaction are
identical under any two store-connection states, and a connection failure is
surfaced as a non-fatal sidebar error message (not a warning) while the
pipeline output is still produced. -/
theorem pipeline_independent_of_store (conn conn' : StoreConn)
    (recognize : GrayImg → String) (img : Img) (e : String) :
    (appStep conn recognize img).pipeline =
      (appStep conn' recognize img).pipeline ∧
    (appStep (StoreConn.failed e) recognize img).sidebar =
      Msg.error ("Error connecting to MongoDB: " ++ e) ∧
    ((appStep (StoreConn.failed e) recognize img).sidebar).isWarning = false :=
  ⟨rfl, rfl, rfl⟩

end ReceiptApp
